import Mathlib

/-!
Shallow embedding of the global Aviator subsystem of `src/app.py`
(Flask app "Tapify"): money and time are modelled as rationals,
`Decimal.quantize(Decimal("0.01"), ROUND_DOWN)` as truncation toward zero
at two decimal places, database rows as Lean structures, and the three
HTTP handlers `api_aviator_state`, `api_aviator_join`, `api_aviator_cashout`
as pure functions on explicit state.  The background round engine
`_global_engine_loop` is modelled as a step relation.
-/

namespace Tapify

/-- Truncation of a rational toward zero, as Python Decimal ROUND_DOWN does. -/
def rtrunc (q : ℚ) : ℤ :=
  if 0 ≤ q then ⌊q⌋ else ⌈q⌉

/-- `to_cents` from app.py line 68: quantize to two decimal places, ROUND_DOWN. -/
def to_cents (x : ℚ) : ℚ :=
  (rtrunc (x * 100) : ℚ) / 100

/-- `USD_TO_NGN = Decimal("1000")` (app.py line 29). -/
def USD_TO_NGN : ℚ := 1000

/-- `AVIATOR_GROWTH_PER_SEC = Decimal("0.25")` (app.py line 44). -/
def AVIATOR_GROWTH_PER_SEC : ℚ := 25 / 100

/-- `MIN_BET = Decimal("0.10")` (app.py line 45). -/
def MIN_BET : ℚ := 10 / 100

/-- `MAX_BET = Decimal("1000000.00")` (app.py line 46). -/
def MAX_BET : ℚ := 1000000

/-- `GLOBAL_ROUND_DURATION_SEC = 20` (app.py line 59). -/
def GLOBAL_ROUND_DURATION_SEC : ℚ := 20

/-- Row of table `global_aviator_rounds` (app.py lines 182-193).
Status strings used by the code: "scheduled", "active", "crashed". -/
structure GlobalAviatorRound where
  id : Nat
  start_time : ℚ
  crash_multiplier : ℚ
  growth_per_sec : ℚ
  status : String
  crashed_at : Option ℚ
deriving DecidableEq, Repr

/-- Row of table `aviator_bets` (app.py lines 195-208). -/
structure AviatorBet where
  id : Nat
  round_id : Nat
  chat_id : Int
  amount_usd : ℚ
  cashed_out : Bool
  cashout_multiplier : Option ℚ
deriving DecidableEq, Repr

/-- The balance fields of a `users` row (app.py lines 111-133); only the
fields the Aviator endpoints touch are modelled. -/
structure User where
  chat_id : Int
  balance_usd : ℚ
  balance_ngn : ℚ
deriving DecidableEq, Repr

/-- Balance effect of `add_tx` with `affect_balance=True` (app.py lines
331-350): quantize the amount, add it to `balance_usd`, re-derive
`balance_ngn` from the new USD balance. -/
def add_tx (user : User) (usd : ℚ) : User :=
  let usd' := to_cents usd
  let b := to_cents (user.balance_usd + usd')
  { user with balance_usd := b, balance_ngn := to_cents (b * USD_TO_NGN) }

/-- The elapsed-time multiplier both endpoints compute (app.py lines
642-645 and 727-729): `1.00 + growth * max(0, now - start)`, quantized to
two decimals with ROUND_DOWN. -/
def compute_mult (r : GlobalAviatorRound) (now : ℚ) : ℚ :=
  to_cents (1 + r.growth_per_sec * max 0 (now - r.start_time))

/-- The `current_multiplier` field returned by `api_aviator_state`
(app.py line 664): the computed multiplier, except that once the round
status is "crashed" the crash multiplier is reported instead. -/
def state_current_multiplier (r : GlobalAviatorRound) (now : ℚ) : ℚ :=
  if r.status = "crashed" then r.crash_multiplier else compute_mult r now

/-- The `filter_by(round_id=..., chat_id=...)` predicate on bets. -/
def betKey (rid : Nat) (cid : Int) (b : AviatorBet) : Bool :=
  b.round_id = rid ∧ b.chat_id = cid

/-- `AviatorBet.query.filter_by(round_id=..., chat_id=...).first()`
(app.py lines 649, 689, 721): first bet of the list matching both keys. -/
def findBet (bets : List AviatorBet) (rid : Nat) (cid : Int) : Option AviatorBet :=
  bets.find? (betKey rid cid)

/-- Update (in place) the first bet matching the two keys, as mutating the
ORM object returned by `.first()` does. -/
def updateFirstBet (bets : List AviatorBet) (rid : Nat) (cid : Int)
    (f : AviatorBet → AviatorBet) : List AviatorBet :=
  match bets with
  | [] => []
  | b :: bs =>
    if betKey rid cid b then f b :: bs
    else b :: updateFirstBet bs rid cid f

/-- `GlobalAviatorRound.query.filter_by(status="active").order_by(id.desc()).first()`
(app.py lines 684, 713): the active round of greatest id, if any. -/
def findActiveRound (rounds : List GlobalAviatorRound) : Option GlobalAviatorRound :=
  (rounds.filter (fun r => r.status = "active")).foldl
    (fun acc r =>
      match acc with
      | none => some r
      | some a => if a.id ≤ r.id then some r else some a)
    none

/-- JSON response shape shared by the join and cashout endpoints. -/
structure ApiResp where
  ok : Bool
  error : String
  payout_usd : ℚ
  multiplier : ℚ
deriving DecidableEq, Repr

/-- An error response carries no payout data. -/
def errResp (msg : String) : ApiResp :=
  { ok := false, error := msg, payout_usd := 0, multiplier := 0 }

/-- `api_aviator_cashout` (app.py lines 702-743), from the point where the
round `r` has been resolved (lines 710-719 only look the round up).
Returns the HTTP response together with the updated user row and bets
table.  Branches, in source order:
1. no bet for (round, user): error, nothing changed (line 723);
2. bet already cashed out: error, nothing changed (line 725);
3. round status "crashed" and computed multiplier at or above the crash
   multiplier: error, and the `cashed_out` field of the bet is rewritten
   to False (lines 730-734);
4. otherwise: credit `to_cents(amount * mult)` via the ledger and mark the
   bet cashed out at `mult` (lines 736-743). -/
def api_aviator_cashout (user : User) (r : GlobalAviatorRound)
    (bets : List AviatorBet) (now : ℚ) : ApiResp × User × List AviatorBet :=
  match findBet bets r.id user.chat_id with
  | none => (errResp "No bet to cash out for user", user, bets)
  | some bet_rec =>
    if bet_rec.cashed_out then
      (errResp "Already cashed out", user, bets)
    else
      let elapsed := now - r.start_time
      let current_mult := to_cents (1 + r.growth_per_sec * max 0 elapsed)
      if r.status = "crashed" ∧ r.crash_multiplier ≤ current_mult then
        (errResp "Round crashed before cashout", user,
          updateFirstBet bets r.id user.chat_id
            (fun b => { b with cashed_out := false }))
      else
        let payout := to_cents (bet_rec.amount_usd * current_mult)
        let user' := add_tx user payout
        let bets' := updateFirstBet bets r.id user.chat_id
          (fun b => { b with cashed_out := true,
                             cashout_multiplier := some current_mult })
        ({ ok := true, error := "", payout_usd := payout,
           multiplier := current_mult }, user', bets')

/-- `api_aviator_join` (app.py lines 669-700).  `next_id` stands for the
autoincrement id the database would assign to a new bet row.  Checks, in
source order: bet bounds, balance, an active round exists, no duplicate
bet; then debits `to_cents(bet)` through the ledger and appends the bet
record. -/
def api_aviator_join (user : User) (rounds : List GlobalAviatorRound)
    (bets : List AviatorBet) (bet : ℚ) (next_id : Nat) :
    ApiResp × User × List AviatorBet :=
  if bet < MIN_BET ∨ MAX_BET < bet then
    (errResp "Bet must be between MIN_BET and MAX_BET", user, bets)
  else if user.balance_usd < bet then
    (errResp "Insufficient balance", user, bets)
  else
    match findActiveRound rounds with
    | none => (errResp "No active round presently", user, bets)
    | some r =>
      match findBet bets r.id user.chat_id with
      | some _ => (errResp "Already placed bet for this round", user, bets)
      | none =>
        let user' := add_tx user (-(to_cents bet))
        let bets' := bets ++
          [{ id := next_id, round_id := r.id, chat_id := user.chat_id,
             amount_usd := to_cents bet, cashed_out := false,
             cashout_multiplier := none }]
        ({ ok := true, error := "", payout_usd := 0, multiplier := 0 },
          user', bets')

/-- Python `round(x, 2)`: round to two decimal places, ties to even. -/
def round2 (x : ℚ) : ℚ :=
  ((if x * 100 - (⌊x * 100⌋ : ℚ) < 1/2 then ⌊x * 100⌋
    else if 1/2 < x * 100 - (⌊x * 100⌋ : ℚ) then ⌊x * 100⌋ + 1
    else if ⌊x * 100⌋ % 2 = 0 then ⌊x * 100⌋
    else ⌊x * 100⌋ + 1 : ℤ) : ℚ) / 100

/-- `sample_crash_multiplier` (app.py lines 71-79) as a function of the
uniform draws it consumes: `r` models the `random.random()` tier draw and
`u1 u2 u3` the `random.uniform` results of the three tiers
(`uniform(1.10, 3.0)`, `uniform(3.0, 10.0)`, `uniform(10.0, 50.0)`). -/
def sample_crash_multiplier (r u1 u2 u3 : ℚ) : ℚ :=
  if r < 80/100 then round2 u1
  else if r < 98/100 then round2 u2
  else round2 u3

/-- The round record `_start_global_round` creates (app.py lines 449-461):
fresh id, current time as start, sampled crash multiplier, default growth,
status "active". -/
def mkActiveRound (idx : Nat) (t crash : ℚ) : GlobalAviatorRound :=
  { id := idx, start_time := t, crash_multiplier := crash,
    growth_per_sec := AVIATOR_GROWTH_PER_SEC, status := "active",
    crashed_at := none }

/-- `_end_global_round` (app.py lines 463-466) applied to the round with
the given id: set status to "crashed" and record the crash time. -/
def markCrashed (rounds : List GlobalAviatorRound) (i : Nat) (t : ℚ) :
    List GlobalAviatorRound :=
  rounds.map (fun r =>
    if r.id = i then { r with status := "crashed", crashed_at := some t } else r)

/-- Number of rounds whose persisted status is "active". -/
def countActive (rounds : List GlobalAviatorRound) : Nat :=
  (rounds.filter (fun r => r.status = "active")).length

/-- State of `_global_engine_loop` (app.py lines 472-499): the persisted
rounds table, plus the id of the round started by the current loop
iteration and not yet ended (none between iterations). -/
structure EngineState where
  rounds : List GlobalAviatorRound
  running : Option Nat
deriving DecidableEq, Repr

/-- One observable step of `_global_engine_loop` (app.py lines 472-499).
Each iteration runs `_start_global_round`, sleeps, runs
`_end_global_round`, sleeps; any exception is caught by the bare
`except` (lines 495-498) and the loop moves on to the next iteration.
- `startOk`: `_start_global_round` commits a fresh round with status
  "active" (a new id, an arbitrary start time and sampled crash value);
- `startFail`: an exception before the round is committed; nothing is
  persisted and the iteration is abandoned;
- `endOk`: `_end_global_round` commits status "crashed" for the round
  started this iteration;
- `endFail`: an exception inside `_end_global_round` (e.g. the commit
  itself fails): the status write is not persisted, the exception is
  caught, and the loop proceeds to the next iteration leaving the round
  "active". -/
inductive EngineStep : EngineState → EngineState → Prop where
  | startOk (s : EngineState) (t crash : ℚ) (h : s.running = none) :
      EngineStep s
        { rounds := s.rounds ++ [mkActiveRound s.rounds.length t crash],
          running := some s.rounds.length }
  | startFail (s : EngineState) (h : s.running = none) : EngineStep s s
  | endOk (s : EngineState) (i : Nat) (t : ℚ) (h : s.running = some i) :
      EngineStep s { rounds := markCrashed s.rounds i t, running := none }
  | endFail (s : EngineState) (i : Nat) (h : s.running = some i) :
      EngineStep s { rounds := s.rounds, running := none }

/-- States reachable from the empty rounds table by the engine loop. -/
inductive EngineReachable : EngineState → Prop where
  | init : EngineReachable { rounds := [], running := none }
  | step {s s' : EngineState} :
      EngineReachable s → EngineStep s s' → EngineReachable s'

/-- Status of a round over a normal (exception-free) engine cycle
(app.py lines 476-489): "active" until `GLOBAL_ROUND_DURATION_SEC`
seconds have elapsed since its start, "crashed" afterwards. -/
def engineRoundStatus (elapsed : ℚ) : String :=
  if elapsed < GLOBAL_ROUND_DURATION_SEC then "active" else "crashed"

/-- Number of bets a user holds on a round. -/
def betCount (bets : List AviatorBet) (rid : Nat) (cid : Int) : Nat :=
  (bets.filter (betKey rid cid)).length

/-- Invariant: a user holds at most one bet per round. -/
def AtMostOneBetPerRound (bets : List AviatorBet) : Prop :=
  ∀ rid cid, betCount bets rid cid ≤ 1

/-! ### Arithmetic facts about truncation -/

theorem rtrunc_intCast (n : ℤ) : rtrunc (n : ℚ) = n := by
  unfold rtrunc
  split <;> simp

theorem rtrunc_le {q : ℚ} (h : 0 ≤ q) : (rtrunc q : ℚ) ≤ q := by
  unfold rtrunc
  rw [if_pos h]
  exact Int.floor_le q

theorem rtrunc_nonneg {q : ℚ} (h : 0 ≤ q) : 0 ≤ rtrunc q := by
  unfold rtrunc
  rw [if_pos h]
  exact Int.floor_nonneg.mpr h

theorem rtrunc_mono {x y : ℚ} (h : x ≤ y) : rtrunc x ≤ rtrunc y := by
  unfold rtrunc
  by_cases hx : 0 ≤ x
  · rw [if_pos hx, if_pos (le_trans hx h)]
    exact Int.floor_mono h
  · rw [if_neg hx]
    by_cases hy : 0 ≤ y
    · rw [if_pos hy]
      refine le_trans (Int.ceil_le.mpr ?_) (Int.floor_nonneg.mpr hy)
      exact_mod_cast le_of_not_le hx
    · rw [if_neg hy]
      exact Int.ceil_mono h

theorem to_cents_le {x : ℚ} (h : 0 ≤ x) : to_cents x ≤ x := by
  unfold to_cents
  rw [div_le_iff₀ (by norm_num : (0:ℚ) < 100)]
  exact rtrunc_le (mul_nonneg h (by norm_num))

theorem to_cents_nonneg {x : ℚ} (h : 0 ≤ x) : 0 ≤ to_cents x := by
  unfold to_cents
  apply div_nonneg _ (by norm_num)
  exact_mod_cast rtrunc_nonneg (mul_nonneg h (by norm_num))

theorem to_cents_mono {x y : ℚ} (h : x ≤ y) : to_cents x ≤ to_cents y := by
  unfold to_cents
  rw [div_le_div_right (by norm_num : (0:ℚ) < 100)]
  exact_mod_cast rtrunc_mono (mul_le_mul_of_nonneg_right h (by norm_num))

theorem to_cents_intCast_div (n : ℤ) : to_cents ((n : ℚ) / 100) = (n : ℚ) / 100 := by
  unfold to_cents
  rw [div_mul_cancel₀ _ (by norm_num : (100:ℚ) ≠ 0), rtrunc_intCast]

theorem exists_int_of_cents {x : ℚ} (h : to_cents x = x) :
    ∃ n : ℤ, x = (n : ℚ) / 100 := by
  refine ⟨rtrunc (x * 100), ?_⟩
  unfold to_cents at h
  exact h.symm

theorem to_cents_add {x y : ℚ} (hx : to_cents x = x) (hy : to_cents y = y) :
    to_cents (x + y) = x + y := by
  obtain ⟨m, rfl⟩ := exists_int_of_cents hx
  obtain ⟨n, rfl⟩ := exists_int_of_cents hy
  rw [div_add_div_same, ← Int.cast_add, to_cents_intCast_div]

theorem to_cents_neg {x : ℚ} (hx : to_cents x = x) : to_cents (-x) = -x := by
  obtain ⟨m, rfl⟩ := exists_int_of_cents hx
  rw [← neg_div, ← Int.cast_neg, to_cents_intCast_div]

theorem to_cents_idem (x : ℚ) : to_cents (to_cents x) = to_cents x := by
  unfold to_cents
  rw [div_mul_cancel₀ _ (by norm_num : (100:ℚ) ≠ 0), rtrunc_intCast]

/-- Rounding half-to-even at two decimals keeps a value inside any
enclosing interval whose endpoints are whole numbers of cents. -/
theorem round2_mem {a b : ℤ} {x : ℚ} (ha : (a : ℚ) / 100 ≤ x)
    (hb : x ≤ (b : ℚ) / 100) :
    (a : ℚ) / 100 ≤ round2 x ∧ round2 x ≤ (b : ℚ) / 100 := by
  have hay : (a : ℚ) ≤ x * 100 := by
    rw [div_le_iff₀ (by norm_num : (0:ℚ) < 100)] at ha
    exact ha
  have hby : x * 100 ≤ (b : ℚ) := by
    rw [le_div_iff₀ (by norm_num : (0:ℚ) < 100)] at hb
    exact hb
  have hfa : a ≤ ⌊x * 100⌋ := Int.le_floor.mpr hay
  have hfb : ⌊x * 100⌋ ≤ b := by
    have : (⌊x * 100⌋ : ℚ) ≤ (b : ℚ) := le_trans (Int.floor_le _) hby
    exact_mod_cast this
  have hdiv : ∀ m n : ℤ, m ≤ n → (m : ℚ) / 100 ≤ (n : ℚ) / 100 := by
    intro m n hmn
    rw [div_le_div_right (by norm_num : (0:ℚ) < 100)]
    exact_mod_cast hmn
  have hsucc : ¬ (x * 100 - (⌊x * 100⌋ : ℚ) < 1/2) → ⌊x * 100⌋ + 1 ≤ b := by
    intro hlt
    push_neg at hlt
    have hfrac : (⌊x * 100⌋ : ℚ) < x * 100 := by linarith
    have : (⌊x * 100⌋ : ℚ) < (b : ℚ) := lt_of_lt_of_le hfrac hby
    have hlt' : ⌊x * 100⌋ < b := by exact_mod_cast this
    omega
  unfold round2
  split_ifs with h1 h2 h3
  · exact ⟨hdiv _ _ hfa, hdiv _ _ hfb⟩
  · exact ⟨le_trans (hdiv _ _ hfa) (hdiv _ _ (by omega)), hdiv _ _ (hsucc h1)⟩
  · exact ⟨hdiv _ _ hfa, hdiv _ _ hfb⟩
  · exact ⟨le_trans (hdiv _ _ hfa) (hdiv _ _ (by omega)), hdiv _ _ (hsucc h1)⟩

/-- If the lookup finds no bet for a key, the bet count for that key is 0. -/
theorem betCount_eq_zero_of_find_none {bets : List AviatorBet} {rid : Nat}
    {cid : Int} (h : findBet bets rid cid = none) : betCount bets rid cid = 0 := by
  unfold findBet at h
  unfold betCount
  rw [List.length_eq_zero, List.filter_eq_nil_iff]
  intro a ha
  exact List.find?_eq_none.mp h a ha

theorem betCount_append (l₁ l₂ : List AviatorBet) (rid : Nat) (cid : Int) :
    betCount (l₁ ++ l₂) rid cid = betCount l₁ rid cid + betCount l₂ rid cid := by
  simp [betCount, List.filter_append]

theorem active_ne_crashed : ("active" : String) ≠ "crashed" := by decide

/-! ### Branch characterizations of the cashout endpoint -/

theorem cashout_eq_of_no_bet {user : User} {r : GlobalAviatorRound}
    {bets : List AviatorBet} {now : ℚ}
    (h : findBet bets r.id user.chat_id = none) :
    api_aviator_cashout user r bets now =
      (errResp "No bet to cash out for user", user, bets) := by
  unfold api_aviator_cashout
  rw [h]

theorem cashout_eq_of_cashed_out {user : User} {r : GlobalAviatorRound}
    {bets : List AviatorBet} {now : ℚ} {b : AviatorBet}
    (h : findBet bets r.id user.chat_id = some b) (hc : b.cashed_out = true) :
    api_aviator_cashout user r bets now =
      (errResp "Already cashed out", user, bets) := by
  unfold api_aviator_cashout
  rw [h]
  simp [hc]

theorem cashout_eq_of_crashed {user : User} {r : GlobalAviatorRound}
    {bets : List AviatorBet} {now : ℚ} {b : AviatorBet}
    (h : findBet bets r.id user.chat_id = some b) (hc : b.cashed_out = false)
    (hcr : r.status = "crashed" ∧ r.crash_multiplier ≤ compute_mult r now) :
    api_aviator_cashout user r bets now =
      (errResp "Round crashed before cashout", user,
        updateFirstBet bets r.id user.chat_id
          (fun bb => { bb with cashed_out := false })) := by
  unfold api_aviator_cashout
  rw [h]
  simp only [hc, Bool.false_eq_true, if_false]
  split_ifs with hcond
  · rfl
  · exact absurd hcr hcond

theorem cashout_eq_of_success {user : User} {r : GlobalAviatorRound}
    {bets : List AviatorBet} {now : ℚ} {b : AviatorBet}
    (h : findBet bets r.id user.chat_id = some b) (hc : b.cashed_out = false)
    (hcr : ¬(r.status = "crashed" ∧ r.crash_multiplier ≤ compute_mult r now)) :
    api_aviator_cashout user r bets now =
      ({ ok := true, error := "",
         payout_usd := to_cents (b.amount_usd * compute_mult r now),
         multiplier := compute_mult r now },
       add_tx user (to_cents (b.amount_usd * compute_mult r now)),
       updateFirstBet bets r.id user.chat_id
         (fun bb =>
           { bb with
             cashed_out := true, cashout_multiplier := some (compute_mult r now) })) := by
  unfold api_aviator_cashout
  rw [h]
  simp only [hc, Bool.false_eq_true, if_false]
  split_ifs with hcond
  · exact absurd hcond hcr
  · rfl

theorem cashout_ok_iff (user : User) (r : GlobalAviatorRound)
    (bets : List AviatorBet) (now : ℚ) :
    (api_aviator_cashout user r bets now).1.ok = true ↔
      ∃ b, findBet bets r.id user.chat_id = some b ∧ b.cashed_out = false ∧
        ¬(r.status = "crashed" ∧ r.crash_multiplier ≤ compute_mult r now) := by
  constructor
  · intro hok
    cases hfind : findBet bets r.id user.chat_id with
    | none =>
      rw [cashout_eq_of_no_bet hfind] at hok
      simp [errResp] at hok
    | some b =>
      by_cases hc : b.cashed_out = true
      · rw [cashout_eq_of_cashed_out hfind hc] at hok
        simp [errResp] at hok
      · replace hc : b.cashed_out = false := by simpa using hc
        by_cases hcr : r.status = "crashed" ∧ r.crash_multiplier ≤ compute_mult r now
        · rw [cashout_eq_of_crashed hfind hc hcr] at hok
          simp [errResp] at hok
        · exact ⟨b, rfl, hc, hcr⟩
  · rintro ⟨b, hfind, hc, hcr⟩
    rw [cashout_eq_of_success hfind hc hcr]

/-! ### Branch characterizations of the join endpoint -/

theorem join_eq_of_bad_bound {user : User} {rounds : List GlobalAviatorRound}
    {bets : List AviatorBet} {bet : ℚ} {next_id : Nat}
    (h : bet < MIN_BET ∨ MAX_BET < bet) :
    api_aviator_join user rounds bets bet next_id =
      (errResp "Bet must be between MIN_BET and MAX_BET", user, bets) := by
  unfold api_aviator_join
  rw [if_pos h]

theorem join_eq_of_insufficient {user : User} {rounds : List GlobalAviatorRound}
    {bets : List AviatorBet} {bet : ℚ} {next_id : Nat}
    (h : ¬(bet < MIN_BET ∨ MAX_BET < bet)) (h2 : user.balance_usd < bet) :
    api_aviator_join user rounds bets bet next_id =
      (errResp "Insufficient balance", user, bets) := by
  unfold api_aviator_join
  rw [if_neg h, if_pos h2]

theorem join_eq_of_no_round {user : User} {rounds : List GlobalAviatorRound}
    {bets : List AviatorBet} {bet : ℚ} {next_id : Nat}
    (h : ¬(bet < MIN_BET ∨ MAX_BET < bet)) (h2 : ¬ user.balance_usd < bet)
    (h3 : findActiveRound rounds = none) :
    api_aviator_join user rounds bets bet next_id =
      (errResp "No active round presently", user, bets) := by
  unfold api_aviator_join
  rw [if_neg h, if_neg h2, h3]

theorem join_eq_of_dup {user : User} {rounds : List GlobalAviatorRound}
    {bets : List AviatorBet} {bet : ℚ} {next_id : Nat} {r : GlobalAviatorRound}
    {b : AviatorBet}
    (h : ¬(bet < MIN_BET ∨ MAX_BET < bet)) (h2 : ¬ user.balance_usd < bet)
    (h3 : findActiveRound rounds = some r)
    (h4 : findBet bets r.id user.chat_id = some b) :
    api_aviator_join user rounds bets bet next_id =
      (errResp "Already placed bet for this round", user, bets) := by
  unfold api_aviator_join
  rw [if_neg h, if_neg h2, h3]
  simp only [h4]

theorem join_eq_of_success {user : User} {rounds : List GlobalAviatorRound}
    {bets : List AviatorBet} {bet : ℚ} {next_id : Nat} {r : GlobalAviatorRound}
    (h : ¬(bet < MIN_BET ∨ MAX_BET < bet)) (h2 : ¬ user.balance_usd < bet)
    (h3 : findActiveRound rounds = some r)
    (h4 : findBet bets r.id user.chat_id = none) :
    api_aviator_join user rounds bets bet next_id =
      ({ ok := true, error := "", payout_usd := 0, multiplier := 0 },
       add_tx user (-(to_cents bet)),
       bets ++ [{ id := next_id, round_id := r.id, chat_id := user.chat_id,
                  amount_usd := to_cents bet, cashed_out := false,
                  cashout_multiplier := none }]) := by
  unfold api_aviator_join
  rw [if_neg h, if_neg h2, h3]
  simp only [h4]

theorem join_ok_iff (user : User) (rounds : List GlobalAviatorRound)
    (bets : List AviatorBet) (bet : ℚ) (next_id : Nat) :
    (api_aviator_join user rounds bets bet next_id).1.ok = true ↔
      ¬(bet < MIN_BET ∨ MAX_BET < bet) ∧ ¬(user.balance_usd < bet) ∧
      ∃ r, findActiveRound rounds = some r ∧
        findBet bets r.id user.chat_id = none := by
  constructor
  · intro hok
    by_cases h1 : bet < MIN_BET ∨ MAX_BET < bet
    · rw [join_eq_of_bad_bound h1] at hok
      simp [errResp] at hok
    by_cases h2 : user.balance_usd < bet
    · rw [join_eq_of_insufficient h1 h2] at hok
      simp [errResp] at hok
    cases hr : findActiveRound rounds with
    | none =>
      rw [join_eq_of_no_round h1 h2 hr] at hok
      simp [errResp] at hok
    | some r =>
      cases hb : findBet bets r.id user.chat_id with
      | some b =>
        rw [join_eq_of_dup h1 h2 hr hb] at hok
        simp [errResp] at hok
      | none => exact ⟨h1, h2, r, rfl, hb⟩
  · rintro ⟨h1, h2, r, hr, hb⟩
    rw [join_eq_of_success h1 h2 hr hb]

/-! ### Claims -/

/-- C1: the claim says a cash-out request made while the status of the
round is "crashed" is always rejected and the bet stays not cashed out.
The code (app.py line 730) rejects only when the status is "crashed" AND
the computed multiplier has reached the crash multiplier, contradicting
the claim and the comment at app.py line 726.  Failing input: round with
status "crashed", crash multiplier 10.00, growth 0.25/s, start t=0; a
cash-out request at t=21s computes multiplier 6.25 < 10.00, so the
request is accepted, the bet is marked cashed out at 6.25 and the payout
is credited. -/
theorem c1_cashout_on_crashed_round_succeeds :
    (api_aviator_cashout ⟨7, 0, 0⟩ ⟨0, 0, 10, 25/100, "crashed", some 20⟩
        [⟨0, 0, 7, 1, false, none⟩] 21).1.ok = true
    ∧ (api_aviator_cashout ⟨7, 0, 0⟩ ⟨0, 0, 10, 25/100, "crashed", some 20⟩
        [⟨0, 0, 7, 1, false, none⟩] 21).1.multiplier = 625/100
    ∧ (api_aviator_cashout ⟨7, 0, 0⟩ ⟨0, 0, 10, 25/100, "crashed", some 20⟩
        [⟨0, 0, 7, 1, false, none⟩] 21).2.2
      = [⟨0, 0, 7, 1, true, some (625/100)⟩] := by
  norm_num [api_aviator_cashout, findBet, betKey, to_cents, rtrunc,
    Int.floor_ofNat, List.find?, updateFirstBet]

/-- C4: a second cash-out request for a bet already marked cashed out is
rejected with the "Already cashed out" error and leaves the user row
(both balances) and the bets table exactly unchanged (app.py lines
724-725 return before any mutation). -/
theorem c4_double_cashout_rejected (user : User) (r : GlobalAviatorRound)
    (bets : List AviatorBet) (now : ℚ) (b : AviatorBet)
    (hfind : findBet bets r.id user.chat_id = some b)
    (hc : b.cashed_out = true) :
    api_aviator_cashout user r bets now =
      (errResp "Already cashed out", user, bets) :=
  cashout_eq_of_cashed_out hfind hc

/-- C4 witness: a concrete already-cashed-out bet is rejected unchanged. -/
theorem c4_double_cashout_rejected_witness :
    findBet [⟨0, 0, 7, 1, true, some 2⟩] 0 7 = some ⟨0, 0, 7, 1, true, some 2⟩
    ∧ (⟨0, 0, 7, 1, true, some 2⟩ : AviatorBet).cashed_out = true
    ∧ api_aviator_cashout ⟨7, 5, 5000⟩ ⟨0, 0, 3, 25/100, "active", none⟩
        [⟨0, 0, 7, 1, true, some 2⟩] 3
      = (errResp "Already cashed out", ⟨7, 5, 5000⟩, [⟨0, 0, 7, 1, true, some 2⟩]) :=
  ⟨by norm_num [findBet, betKey, List.find?], rfl,
    c4_double_cashout_rejected ⟨7, 5, 5000⟩ ⟨0, 0, 3, 25/100, "active", none⟩
      [⟨0, 0, 7, 1, true, some 2⟩] 3 ⟨0, 0, 7, 1, true, some 2⟩
      (by norm_num [findBet, betKey, List.find?]) rfl⟩

/-- C2 counterexample: the claim says the multiplier is clamped at the
crash multiplier once the formula value would exceed it.  For a round
with status "active", growth 0.25/s, crash multiplier 1.50, start t=0,
queried at t=8.02s, the formula value is 3.005; the state endpoint
reports 3.00 (the truncated formula value), NOT the crash value 1.50:
no clamping by value happens while the status is "active". -/
theorem c2_no_value_clamp_counterexample :
    state_current_multiplier ⟨0, 0, 3/2, 25/100, "active", none⟩ (401/50) = 3
    ∧ (3/2 : ℚ) < 3
    ∧ 1 + (25/100 : ℚ) * max 0 (401/50 - 0) = 601/200
    ∧ (3 : ℚ) ≠ 601/200 := by
  norm_num [state_current_multiplier, compute_mult, to_cents, rtrunc,
    Int.floor_ofNat, active_ne_crashed]

/-- C2 amended: the current multiplier is the formula value
`1.00 + growth_per_sec * max(0, now - start_time)` truncated down to two
decimals; the state endpoint replaces it by the crash multiplier exactly
when the status of the round is "crashed" (not when the value reaches the
crash multiplier), and a successful cash-out uses the truncated formula
value with no clamping at the crash multiplier. -/
theorem c2_multiplier_formula (r : GlobalAviatorRound) (now : ℚ)
    (user : User) (bets : List AviatorBet)
    (hok : (api_aviator_cashout user r bets now).1.ok = true) :
    state_current_multiplier r now =
      (if r.status = "crashed" then r.crash_multiplier
       else to_cents (1 + r.growth_per_sec * max 0 (now - r.start_time)))
    ∧ (api_aviator_cashout user r bets now).1.multiplier =
      to_cents (1 + r.growth_per_sec * max 0 (now - r.start_time)) := by
  obtain ⟨b, hfind, hc, hcr⟩ := (cashout_ok_iff user r bets now).mp hok
  refine ⟨rfl, ?_⟩
  rw [cashout_eq_of_success hfind hc hcr]
  rfl

/-- C2 witness: the amended statement instantiated at a concrete
successful cash-out (active round, growth 0.25/s, crash 3.00, t=4s). -/
theorem c2_multiplier_formula_witness :
    (api_aviator_cashout ⟨7, 0, 0⟩ ⟨0, 0, 3, 25/100, "active", none⟩
        [⟨1, 0, 7, 1, false, none⟩] 4).1.ok = true
    ∧ (state_current_multiplier ⟨0, 0, 3, 25/100, "active", none⟩ 4 =
        (if ("active" : String) = "crashed" then 3
         else to_cents (1 + 25/100 * max 0 (4 - 0)))
      ∧ (api_aviator_cashout ⟨7, 0, 0⟩ ⟨0, 0, 3, 25/100, "active", none⟩
          [⟨1, 0, 7, 1, false, none⟩] 4).1.multiplier =
        to_cents (1 + 25/100 * max 0 (4 - 0))) :=
  ⟨by norm_num [api_aviator_cashout, findBet, betKey, to_cents, rtrunc,
      Int.floor_ofNat, List.find?, active_ne_crashed],
   c2_multiplier_formula ⟨0, 0, 3, 25/100, "active", none⟩ 4 ⟨7, 0, 0⟩
     [⟨1, 0, 7, 1, false, none⟩]
     (by norm_num [api_aviator_cashout, findBet, betKey, to_cents, rtrunc,
        Int.floor_ofNat, List.find?, active_ne_crashed])⟩

/-- C3 counterexample: the claim says every cash-out attempt at or after
t=9s fails for a round with growth 0.25/s and crash multiplier 3.00
starting at t=0.  In the code the round is crashed by the fixed
20-second timer, not by the multiplier reaching the crash value, so at
t=9s the round status is still "active" and a cash-out succeeds at
multiplier 3.25 (which even exceeds the crash value 3.00). -/
theorem c3_cashout_at_9s_succeeds :
    (api_aviator_cashout ⟨7, 0, 0⟩ ⟨0, 0, 3, 25/100, "active", none⟩
        [⟨0, 0, 7, 1, false, none⟩] 9).1.ok = true
    ∧ (api_aviator_cashout ⟨7, 0, 0⟩ ⟨0, 0, 3, 25/100, "active", none⟩
        [⟨0, 0, 7, 1, false, none⟩] 9).1.multiplier = 13/4
    ∧ (3 : ℚ) ≤ 13/4 := by
  norm_num [api_aviator_cashout, findBet, betKey, to_cents, rtrunc,
    Int.floor_ofNat, List.find?, active_ne_crashed]

/-- C3 amended: for a round with growth 0.25/s and crash multiplier 3.00
starting at t=0: at t=5s the computed multiplier is 2.25 and the round is
still active; at t=9s the computed multiplier is 3.25 ≥ 3.00 but the
round is STILL active (the engine crashes rounds only after the fixed
20-second duration) and a cash-out at t=9s succeeds; once the round has
crashed (any t ≥ 20s) cash-out attempts fail. -/
theorem c3_example_timeline :
    compute_mult ⟨0, 0, 3, 25/100, "active", none⟩ 5 = 9/4
    ∧ engineRoundStatus 5 = "active"
    ∧ compute_mult ⟨0, 0, 3, 25/100, "active", none⟩ 9 = 13/4
    ∧ (3 : ℚ) ≤ 13/4
    ∧ engineRoundStatus 9 = "active"
    ∧ (api_aviator_cashout ⟨7, 0, 0⟩ ⟨0, 0, 3, 25/100, "active", none⟩
        [⟨0, 0, 7, 1, false, none⟩] 9).1.ok = true
    ∧ (∀ t : ℚ, 20 ≤ t →
        engineRoundStatus (t - 0) = "crashed"
        ∧ (api_aviator_cashout ⟨7, 0, 0⟩ ⟨0, 0, 3, 25/100, "crashed", some 20⟩
            [⟨0, 0, 7, 1, false, none⟩] t).1.ok = false) := by
  refine ⟨by norm_num [compute_mult, to_cents, rtrunc, Int.floor_ofNat],
    by norm_num [engineRoundStatus, GLOBAL_ROUND_DURATION_SEC],
    by norm_num [compute_mult, to_cents, rtrunc, Int.floor_ofNat],
    by norm_num,
    by norm_num [engineRoundStatus, GLOBAL_ROUND_DURATION_SEC],
    by norm_num [api_aviator_cashout, findBet, betKey, to_cents, rtrunc,
      Int.floor_ofNat, List.find?, active_ne_crashed],
    ?_⟩
  intro t ht
  constructor
  · unfold engineRoundStatus GLOBAL_ROUND_DURATION_SEC
    rw [if_neg]
    push_neg
    linarith
  · have hfind : findBet [(⟨0, 0, 7, 1, false, none⟩ : AviatorBet)] 0 7 =
        some ⟨0, 0, 7, 1, false, none⟩ := by
      norm_num [findBet, betKey, List.find?]
    have h6 : to_cents (6 : ℚ) = 6 := by
      norm_num [to_cents, rtrunc, Int.floor_ofNat]
    have hmult : (3 : ℚ) ≤
        compute_mult ⟨0, 0, 3, 25/100, "crashed", some 20⟩ t := by
      unfold compute_mult
      have hmax : max (0:ℚ) (t - 0) = t - 0 := max_eq_right (by linarith)
      calc (3 : ℚ) ≤ 6 := by norm_num
        _ = to_cents 6 := h6.symm
        _ ≤ to_cents (1 + 25/100 * max 0 (t - 0)) := by
            apply to_cents_mono
            rw [hmax]
            linarith
    rw [cashout_eq_of_crashed hfind rfl ⟨rfl, hmult⟩]
    rfl

/-- C3 witness: the amended statement applied at t=20s. -/
theorem c3_example_timeline_witness :
    (20 : ℚ) ≤ 20
    ∧ (engineRoundStatus ((20 : ℚ) - 0) = "crashed"
      ∧ (api_aviator_cashout ⟨7, 0, 0⟩ ⟨0, 0, 3, 25/100, "crashed", some 20⟩
          [⟨0, 0, 7, 1, false, none⟩] 20).1.ok = false) :=
  ⟨le_refl 20, c3_example_timeline.2.2.2.2.2.2 20 (le_refl 20)⟩

/-- C5: a join request succeeds exactly when the bet amount is within
[MIN_BET, MAX_BET], the balance covers the bet, an active round exists,
and the user has no bet on that round yet; on success the USD balance is
debited by the bet amount and exactly the one new bet record is appended;
on any failure the user row and the bets table are unchanged.  Stated for
whole-cent bet amounts and balances, which the Numeric(18,2) schema of
the database guarantees. -/
theorem c5_join_spec (user : User) (rounds : List GlobalAviatorRound)
    (bets : List AviatorBet) (bet : ℚ) (next_id : Nat)
    (hcb : to_cents bet = bet)
    (hcu : to_cents user.balance_usd = user.balance_usd) :
    ((api_aviator_join user rounds bets bet next_id).1.ok = true ↔
      (MIN_BET ≤ bet ∧ bet ≤ MAX_BET ∧ bet ≤ user.balance_usd ∧
        ∃ r, findActiveRound rounds = some r ∧
          findBet bets r.id user.chat_id = none))
    ∧ (∀ r, findActiveRound rounds = some r →
        (api_aviator_join user rounds bets bet next_id).1.ok = true →
        (api_aviator_join user rounds bets bet next_id).2.1.balance_usd
            = user.balance_usd - bet
        ∧ (api_aviator_join user rounds bets bet next_id).2.2
            = bets ++ [⟨next_id, r.id, user.chat_id, bet, false, none⟩])
    ∧ ((api_aviator_join user rounds bets bet next_id).1.ok = false →
        (api_aviator_join user rounds bets bet next_id).2.1 = user
        ∧ (api_aviator_join user rounds bets bet next_id).2.2 = bets) := by
  have hneg : to_cents (-bet) = -bet := to_cents_neg hcb
  refine ⟨?_, ?_, ?_⟩
  · rw [join_ok_iff]
    constructor
    · rintro ⟨h1, h2, hex⟩
      push_neg at h1
      exact ⟨h1.1, h1.2, le_of_not_lt h2, hex⟩
    · rintro ⟨hmin, hmax, hbal, hex⟩
      refine ⟨?_, not_lt_of_le hbal, hex⟩
      push_neg
      exact ⟨hmin, hmax⟩
  · intro r hr hok
    obtain ⟨h1, h2, r', hr', hb'⟩ := (join_ok_iff user rounds bets bet next_id).mp hok
    rw [hr] at hr'
    injection hr' with hrr
    subst hrr
    rw [join_eq_of_success h1 h2 hr hb']
    constructor
    · show to_cents (user.balance_usd + to_cents (-(to_cents bet)))
          = user.balance_usd - bet
      rw [hcb, hneg, to_cents_add hcu (by rw [hneg] : to_cents (-bet) = -bet)]
      ring
    · rw [hcb]
  · intro hko
    by_cases h1 : bet < MIN_BET ∨ MAX_BET < bet
    · rw [join_eq_of_bad_bound h1]
      exact ⟨rfl, rfl⟩
    by_cases h2 : user.balance_usd < bet
    · rw [join_eq_of_insufficient h1 h2]
      exact ⟨rfl, rfl⟩
    cases hr : findActiveRound rounds with
    | none =>
      rw [join_eq_of_no_round h1 h2 hr]
      exact ⟨rfl, rfl⟩
    | some r =>
      cases hb : findBet bets r.id user.chat_id with
      | some b =>
        rw [join_eq_of_dup h1 h2 hr hb]
        exact ⟨rfl, rfl⟩
      | none =>
        rw [join_eq_of_success h1 h2 hr hb] at hko
        simp at hko

/-- C5 witness: a concrete successful join (balance 1.00, bet 0.50,
one active round, no prior bet) debits the balance and appends the bet. -/
theorem c5_join_spec_witness :
    to_cents (1/2 : ℚ) = 1/2
    ∧ to_cents ((⟨7, 1, 1000⟩ : User).balance_usd) = (⟨7, 1, 1000⟩ : User).balance_usd
    ∧ (((api_aviator_join ⟨7, 1, 1000⟩ [⟨0, 0, 2, 25/100, "active", none⟩] []
          (1/2) 0).1.ok = true ↔
        (MIN_BET ≤ (1/2 : ℚ) ∧ (1/2 : ℚ) ≤ MAX_BET ∧ (1/2 : ℚ) ≤ (1 : ℚ) ∧
          ∃ r, findActiveRound [⟨0, 0, 2, 25/100, "active", none⟩] = some r ∧
            findBet [] r.id 7 = none))
      ∧ (∀ r, findActiveRound [⟨0, 0, 2, 25/100, "active", none⟩] = some r →
          (api_aviator_join ⟨7, 1, 1000⟩ [⟨0, 0, 2, 25/100, "active", none⟩] []
            (1/2) 0).1.ok = true →
          (api_aviator_join ⟨7, 1, 1000⟩ [⟨0, 0, 2, 25/100, "active", none⟩] []
            (1/2) 0).2.1.balance_usd = 1 - 1/2
          ∧ (api_aviator_join ⟨7, 1, 1000⟩ [⟨0, 0, 2, 25/100, "active", none⟩] []
            (1/2) 0).2.2 = [] ++ [⟨0, r.id, 7, 1/2, false, none⟩])
      ∧ ((api_aviator_join ⟨7, 1, 1000⟩ [⟨0, 0, 2, 25/100, "active", none⟩] []
            (1/2) 0).1.ok = false →
          (api_aviator_join ⟨7, 1, 1000⟩ [⟨0, 0, 2, 25/100, "active", none⟩] []
            (1/2) 0).2.1 = ⟨7, 1, 1000⟩
          ∧ (api_aviator_join ⟨7, 1, 1000⟩ [⟨0, 0, 2, 25/100, "active", none⟩] []
            (1/2) 0).2.2 = [])) :=
  ⟨by norm_num [to_cents, rtrunc, Int.floor_ofNat],
   by norm_num [to_cents, rtrunc, Int.floor_ofNat],
   c5_join_spec ⟨7, 1, 1000⟩ [⟨0, 0, 2, 25/100, "active", none⟩] [] (1/2) 0
     (by norm_num [to_cents, rtrunc, Int.floor_ofNat])
     (by norm_num [to_cents, rtrunc, Int.floor_ofNat])⟩

/-- C6 counterexample: the claim says the credited amount equals
`bet_amount * multiplier` exactly.  With bet 0.15 and multiplier 1.25
(active round, growth 0.25/s, crash 5.00, cash-out at t=1s) the exact
product is 0.1875, but the code credits `to_cents(0.1875) = 0.18`: the
payout is truncated down to whole cents, so it does not equal the
product. -/
theorem c6_payout_truncation_counterexample :
    (api_aviator_cashout ⟨7, 1, 1000⟩ ⟨0, 0, 5, 25/100, "active", none⟩
        [⟨0, 0, 7, 3/20, false, none⟩] 1).1.ok = true
    ∧ (api_aviator_cashout ⟨7, 1, 1000⟩ ⟨0, 0, 5, 25/100, "active", none⟩
        [⟨0, 0, 7, 3/20, false, none⟩] 1).1.multiplier = 5/4
    ∧ (api_aviator_cashout ⟨7, 1, 1000⟩ ⟨0, 0, 5, 25/100, "active", none⟩
        [⟨0, 0, 7, 3/20, false, none⟩] 1).1.payout_usd = 9/50
    ∧ (api_aviator_cashout ⟨7, 1, 1000⟩ ⟨0, 0, 5, 25/100, "active", none⟩
        [⟨0, 0, 7, 3/20, false, none⟩] 1).2.1.balance_usd = 1 + 9/50
    ∧ (9/50 : ℚ) ≠ (3/20 : ℚ) * (5/4) := by
  norm_num [api_aviator_cashout, findBet, betKey, to_cents, rtrunc,
    Int.floor_ofNat, List.find?, active_ne_crashed, add_tx, USD_TO_NGN]

/-- C6 amended: on a successful cash-out the amount credited to the USD
balance equals `to_cents(bet_amount * multiplier)` — the product
truncated down to whole cents — and the bet is marked cashed out with
that multiplier stored.  Stated for a whole-cent starting balance, which
the Numeric(18,2) schema guarantees. -/
theorem c6_cashout_credit (user : User) (r : GlobalAviatorRound)
    (bets : List AviatorBet) (now : ℚ) (b : AviatorBet)
    (hfind : findBet bets r.id user.chat_id = some b)
    (hok : (api_aviator_cashout user r bets now).1.ok = true)
    (hcu : to_cents user.balance_usd = user.balance_usd) :
    (api_aviator_cashout user r bets now).1.payout_usd
        = to_cents (b.amount_usd * compute_mult r now)
    ∧ (api_aviator_cashout user r bets now).2.1.balance_usd
        = user.balance_usd + to_cents (b.amount_usd * compute_mult r now)
    ∧ (api_aviator_cashout user r bets now).2.2
        = updateFirstBet bets r.id user.chat_id
            (fun bb =>
              { bb with
                cashed_out := true,
                cashout_multiplier := some (compute_mult r now) }) := by
  obtain ⟨b', hfind', hc, hcr⟩ := (cashout_ok_iff user r bets now).mp hok
  rw [hfind] at hfind'
  injection hfind' with hbb
  subst hbb
  rw [cashout_eq_of_success hfind hc hcr]
  refine ⟨rfl, ?_, rfl⟩
  show to_cents (user.balance_usd +
      to_cents (to_cents (b.amount_usd * compute_mult r now)))
    = user.balance_usd + to_cents (b.amount_usd * compute_mult r now)
  rw [to_cents_idem]
  exact to_cents_add hcu (to_cents_idem _)

/-- C6 witness: the amended statement at the concrete instance of the
counterexample (payout 0.18 on bet 0.15 at multiplier 1.25). -/
theorem c6_cashout_credit_witness :
    findBet [⟨0, 0, 7, 3/20, false, none⟩] 0 7 = some ⟨0, 0, 7, 3/20, false, none⟩
    ∧ (api_aviator_cashout ⟨7, 1, 1000⟩ ⟨0, 0, 5, 25/100, "active", none⟩
        [⟨0, 0, 7, 3/20, false, none⟩] 1).1.ok = true
    ∧ to_cents ((⟨7, 1, 1000⟩ : User).balance_usd) = (⟨7, 1, 1000⟩ : User).balance_usd
    ∧ ((api_aviator_cashout ⟨7, 1, 1000⟩ ⟨0, 0, 5, 25/100, "active", none⟩
          [⟨0, 0, 7, 3/20, false, none⟩] 1).1.payout_usd
        = to_cents ((3/20 : ℚ) *
            compute_mult ⟨0, 0, 5, 25/100, "active", none⟩ 1)
      ∧ (api_aviator_cashout ⟨7, 1, 1000⟩ ⟨0, 0, 5, 25/100, "active", none⟩
          [⟨0, 0, 7, 3/20, false, none⟩] 1).2.1.balance_usd
        = 1 + to_cents ((3/20 : ℚ) *
            compute_mult ⟨0, 0, 5, 25/100, "active", none⟩ 1)
      ∧ (api_aviator_cashout ⟨7, 1, 1000⟩ ⟨0, 0, 5, 25/100, "active", none⟩
          [⟨0, 0, 7, 3/20, false, none⟩] 1).2.2
        = updateFirstBet [⟨0, 0, 7, 3/20, false, none⟩] 0 7
            (fun bb =>
              { bb with
                cashed_out := true,
                cashout_multiplier :=
                  some (compute_mult ⟨0, 0, 5, 25/100, "active", none⟩ 1) })) :=
  ⟨by norm_num [findBet, betKey, List.find?],
   by norm_num [api_aviator_cashout, findBet, betKey, to_cents, rtrunc,
     Int.floor_ofNat, List.find?, active_ne_crashed],
   by norm_num [to_cents, rtrunc, Int.floor_ofNat],
   c6_cashout_credit ⟨7, 1, 1000⟩ ⟨0, 0, 5, 25/100, "active", none⟩
     [⟨0, 0, 7, 3/20, false, none⟩] 1 ⟨0, 0, 7, 3/20, false, none⟩
     (by norm_num [findBet, betKey, List.find?])
     (by norm_num [api_aviator_cashout, findBet, betKey, to_cents, rtrunc,
       Int.floor_ofNat, List.find?, active_ne_crashed])
     (by norm_num [to_cents, rtrunc, Int.floor_ofNat])⟩

/-- C7: the claim says at most one round is "active" at every reachable
state of the engine loop, including iterations where a caught exception
makes the loop continue.  It fails: if `_end_global_round` raises (for
example its commit fails), the exception is caught (app.py lines
495-498), the started round keeps status "active" in the database, and
the next iteration commits a second "active" round.  The trace
start-ok, end-fail, start-ok reaches a state with two active rounds. -/
theorem c7_two_active_rounds_reachable :
    ∃ s : EngineState, EngineReachable s ∧ 2 ≤ countActive s.rounds := by
  have h0 : EngineReachable { rounds := [], running := none } :=
    EngineReachable.init
  have h1 : EngineReachable
      { rounds := [mkActiveRound 0 0 2], running := some 0 } := by
    have hs := EngineReachable.step h0
      (EngineStep.startOk { rounds := [], running := none } 0 2 rfl)
    simpa using hs
  have h2 : EngineReachable
      { rounds := [mkActiveRound 0 0 2], running := none } :=
    EngineReachable.step h1
      (EngineStep.endFail { rounds := [mkActiveRound 0 0 2], running := some 0 }
        0 rfl)
  have h3 : EngineReachable
      { rounds := [mkActiveRound 0 0 2, mkActiveRound 1 30 2],
        running := some 1 } := by
    have hs := EngineReachable.step h2
      (EngineStep.startOk { rounds := [mkActiveRound 0 0 2], running := none }
        30 2 rfl)
    simpa using hs
  refine ⟨_, h3, ?_⟩
  norm_num [countActive, mkActiveRound, List.filter]

/-- C8: a user holds at most one bet per round.  The empty bets table
satisfies the invariant, and the join endpoint preserves it: a join on a
round where the user already has a bet is rejected without creating a
record (app.py lines 689-691), and a successful join appends the single
record for a (round, user) pair that had none. -/
theorem c8_at_most_one_bet_per_round (user : User)
    (rounds : List GlobalAviatorRound) (bets : List AviatorBet) (bet : ℚ)
    (next_id : Nat) (hinv : AtMostOneBetPerRound bets) :
    AtMostOneBetPerRound ([] : List AviatorBet)
    ∧ AtMostOneBetPerRound (api_aviator_join user rounds bets bet next_id).2.2 := by
  constructor
  · intro rid cid
    simp [betCount]
  · by_cases h1 : bet < MIN_BET ∨ MAX_BET < bet
    · rw [join_eq_of_bad_bound h1]
      exact hinv
    by_cases h2 : user.balance_usd < bet
    · rw [join_eq_of_insufficient h1 h2]
      exact hinv
    cases hr : findActiveRound rounds with
    | none =>
      rw [join_eq_of_no_round h1 h2 hr]
      exact hinv
    | some r =>
      cases hb : findBet bets r.id user.chat_id with
      | some b =>
        rw [join_eq_of_dup h1 h2 hr hb]
        exact hinv
      | none =>
        rw [join_eq_of_success h1 h2 hr hb]
        intro rid cid
        rw [betCount_append]
        by_cases hkey : betKey rid cid
            { id := next_id, round_id := r.id, chat_id := user.chat_id,
              amount_usd := to_cents bet, cashed_out := false,
              cashout_multiplier := none } = true
        · have hk : r.id = rid ∧ user.chat_id = cid := by
            simpa [betKey] using hkey
          obtain ⟨hk1, hk2⟩ := hk
          subst hk1
          subst hk2
          rw [betCount_eq_zero_of_find_none hb]
          simp [betCount, List.filter, hkey]
        · have hzero : betCount
              [{ id := next_id, round_id := r.id, chat_id := user.chat_id,
                 amount_usd := to_cents bet, cashed_out := false,
                 cashout_multiplier := none }] rid cid = 0 := by
            simp [betCount, List.filter, hkey]
          rw [hzero]
          exact le_trans (le_of_eq (by ring)) (hinv rid cid)

/-- C8 witness: the invariant instantiated at a concrete join (empty
table, one active round) still holds afterwards. -/
theorem c8_at_most_one_bet_per_round_witness :
    AtMostOneBetPerRound ([] : List AviatorBet)
    ∧ (AtMostOneBetPerRound ([] : List AviatorBet)
      ∧ AtMostOneBetPerRound
          (api_aviator_join ⟨7, 1, 1000⟩ [⟨0, 0, 2, 25/100, "active", none⟩] []
            (1/2) 0).2.2) :=
  ⟨fun rid cid => by simp [betCount],
   c8_at_most_one_bet_per_round ⟨7, 1, 1000⟩ [⟨0, 0, 2, 25/100, "active", none⟩]
     [] (1/2) 0 (fun rid cid => by simp [betCount])⟩

/-- C9: as a function of its uniform draws, the sampler returns a value
in [1.10, 3.00] when the tier draw is below 0.80, in [3.00, 10.00] when
it is in [0.80, 0.98), and in [10.00, 50.00] otherwise; every sampled
value therefore lies in [1.10, 50.00] and exceeds 1.00.  The hypotheses
state the ranges of the three `random.uniform` draws. -/
theorem c9_sampler_tiers (r u1 u2 u3 : ℚ)
    (h1l : 110/100 ≤ u1) (h1u : u1 ≤ 3)
    (h2l : 3 ≤ u2) (h2u : u2 ≤ 10)
    (h3l : 10 ≤ u3) (h3u : u3 ≤ 50) :
    (r < 80/100 →
      110/100 ≤ sample_crash_multiplier r u1 u2 u3
      ∧ sample_crash_multiplier r u1 u2 u3 ≤ 3)
    ∧ (80/100 ≤ r → r < 98/100 →
      3 ≤ sample_crash_multiplier r u1 u2 u3
      ∧ sample_crash_multiplier r u1 u2 u3 ≤ 10)
    ∧ (98/100 ≤ r →
      10 ≤ sample_crash_multiplier r u1 u2 u3
      ∧ sample_crash_multiplier r u1 u2 u3 ≤ 50)
    ∧ (110/100 ≤ sample_crash_multiplier r u1 u2 u3
      ∧ sample_crash_multiplier r u1 u2 u3 ≤ 50
      ∧ 1 < sample_crash_multiplier r u1 u2 u3) := by
  have m1 := round2_mem
    (show ((110 : ℤ) : ℚ) / 100 ≤ u1 by push_cast; linarith)
    (show u1 ≤ ((300 : ℤ) : ℚ) / 100 by push_cast; linarith)
  have m2 := round2_mem
    (show ((300 : ℤ) : ℚ) / 100 ≤ u2 by push_cast; linarith)
    (show u2 ≤ ((1000 : ℤ) : ℚ) / 100 by push_cast; linarith)
  have m3 := round2_mem
    (show ((1000 : ℤ) : ℚ) / 100 ≤ u3 by push_cast; linarith)
    (show u3 ≤ ((5000 : ℤ) : ℚ) / 100 by push_cast; linarith)
  obtain ⟨m1l, m1u⟩ := m1
  obtain ⟨m2l, m2u⟩ := m2
  obtain ⟨m3l, m3u⟩ := m3
  push_cast at m1l m1u m2l m2u m3l m3u
  norm_num at m1l m1u m2l m2u m3l m3u
  unfold sample_crash_multiplier
  split_ifs with ha hb
  · refine ⟨fun _ => ⟨by linarith, by linarith⟩,
      fun hc _ => absurd ha (not_lt_of_le hc), fun hc => ?_, ?_⟩
    · exact absurd ha (not_lt_of_le (by linarith))
    · exact ⟨by linarith, by linarith, by linarith⟩
  · refine ⟨fun hc => absurd hc ha, fun _ _ => ⟨by linarith, by linarith⟩,
      fun hc => absurd hb (not_lt_of_le hc), ?_⟩
    exact ⟨by linarith, by linarith, by linarith⟩
  · refine ⟨fun hc => absurd hc ha, fun _ hc => absurd hc hb, ?_, ?_⟩
    · exact fun _ => ⟨by linarith, by linarith⟩
    · exact ⟨by linarith, by linarith, by linarith⟩

/-- C9 witness: the sampler facts at concrete draws (tier draw 0.5,
uniform draws 2.00, 5.00, 20.00). -/
theorem c9_sampler_tiers_witness :
    ((110/100 : ℚ) ≤ 2 ∧ (2 : ℚ) ≤ 3 ∧ (3 : ℚ) ≤ 5 ∧ (5 : ℚ) ≤ 10
      ∧ (10 : ℚ) ≤ 20 ∧ (20 : ℚ) ≤ 50)
    ∧ (((1/2 : ℚ) < 80/100 →
        110/100 ≤ sample_crash_multiplier (1/2) 2 5 20
        ∧ sample_crash_multiplier (1/2) 2 5 20 ≤ 3)
      ∧ ((80/100 : ℚ) ≤ 1/2 → (1/2 : ℚ) < 98/100 →
        3 ≤ sample_crash_multiplier (1/2) 2 5 20
        ∧ sample_crash_multiplier (1/2) 2 5 20 ≤ 10)
      ∧ ((98/100 : ℚ) ≤ 1/2 →
        10 ≤ sample_crash_multiplier (1/2) 2 5 20
        ∧ sample_crash_multiplier (1/2) 2 5 20 ≤ 50)
      ∧ (110/100 ≤ sample_crash_multiplier (1/2) 2 5 20
        ∧ sample_crash_multiplier (1/2) 2 5 20 ≤ 50
        ∧ 1 < sample_crash_multiplier (1/2) 2 5 20)) :=
  ⟨by norm_num,
   c9_sampler_tiers (1/2) 2 5 20 (by norm_num) (by norm_num) (by norm_num)
     (by norm_num) (by norm_num) (by norm_num)⟩

/-- C10: on a successful cash-out the multiplier used is the exact
formula value truncated down to two decimals, the credited payout is the
bet amount times that multiplier truncated down to whole cents, and the
payout never exceeds the bet amount times the exact un-rounded formula
value (nonnegative bet amount and growth rate, as the schema and
configuration guarantee). -/
theorem c10_payout_never_exceeds_exact (user : User)
    (r : GlobalAviatorRound) (bets : List AviatorBet) (now : ℚ)
    (b : AviatorBet) (hfind : findBet bets r.id user.chat_id = some b)
    (hok : (api_aviator_cashout user r bets now).1.ok = true)
    (hamt : 0 ≤ b.amount_usd) (hg : 0 ≤ r.growth_per_sec) :
    (api_aviator_cashout user r bets now).1.multiplier
        = to_cents (1 + r.growth_per_sec * max 0 (now - r.start_time))
    ∧ (api_aviator_cashout user r bets now).1.payout_usd
        = to_cents (b.amount_usd *
            (api_aviator_cashout user r bets now).1.multiplier)
    ∧ (api_aviator_cashout user r bets now).1.payout_usd
        ≤ b.amount_usd * (1 + r.growth_per_sec * max 0 (now - r.start_time)) := by
  obtain ⟨b', hfind', hc, hcr⟩ := (cashout_ok_iff user r bets now).mp hok
  rw [hfind] at hfind'
  injection hfind' with hbb
  subst hbb
  rw [cashout_eq_of_success hfind hc hcr]
  refine ⟨rfl, rfl, ?_⟩
  show to_cents (b.amount_usd * compute_mult r now)
    ≤ b.amount_usd * (1 + r.growth_per_sec * max 0 (now - r.start_time))
  have hexact : (0 : ℚ) ≤ 1 + r.growth_per_sec * max 0 (now - r.start_time) := by
    have := mul_nonneg hg (le_max_left (0 : ℚ) (now - r.start_time))
    linarith
  have hm0 : 0 ≤ compute_mult r now := to_cents_nonneg hexact
  have hmle : compute_mult r now
      ≤ 1 + r.growth_per_sec * max 0 (now - r.start_time) := to_cents_le hexact
  calc to_cents (b.amount_usd * compute_mult r now)
      ≤ b.amount_usd * compute_mult r now :=
        to_cents_le (mul_nonneg hamt hm0)
    _ ≤ b.amount_usd * (1 + r.growth_per_sec * max 0 (now - r.start_time)) :=
        mul_le_mul_of_nonneg_left hmle hamt

/-- C10 witness: the bound at the concrete truncating cash-out
(bet 0.15, multiplier 1.25, payout 0.18 ≤ 0.1875). -/
theorem c10_payout_never_exceeds_exact_witness :
    findBet [⟨0, 0, 7, 3/20, false, none⟩] 0 7 = some ⟨0, 0, 7, 3/20, false, none⟩
    ∧ (api_aviator_cashout ⟨7, 1, 1000⟩ ⟨0, 0, 5, 25/100, "active", none⟩
        [⟨0, 0, 7, 3/20, false, none⟩] 1).1.ok = true
    ∧ (0 : ℚ) ≤ 3/20 ∧ (0 : ℚ) ≤ 25/100
    ∧ ((api_aviator_cashout ⟨7, 1, 1000⟩ ⟨0, 0, 5, 25/100, "active", none⟩
          [⟨0, 0, 7, 3/20, false, none⟩] 1).1.multiplier
        = to_cents (1 + 25/100 * max 0 (1 - 0))
      ∧ (api_aviator_cashout ⟨7, 1, 1000⟩ ⟨0, 0, 5, 25/100, "active", none⟩
          [⟨0, 0, 7, 3/20, false, none⟩] 1).1.payout_usd
        = to_cents ((3/20 : ℚ) *
            (api_aviator_cashout ⟨7, 1, 1000⟩ ⟨0, 0, 5, 25/100, "active", none⟩
              [⟨0, 0, 7, 3/20, false, none⟩] 1).1.multiplier)
      ∧ (api_aviator_cashout ⟨7, 1, 1000⟩ ⟨0, 0, 5, 25/100, "active", none⟩
          [⟨0, 0, 7, 3/20, false, none⟩] 1).1.payout_usd
        ≤ (3/20 : ℚ) * (1 + 25/100 * max 0 (1 - 0))) :=
  ⟨by norm_num [findBet, betKey, List.find?],
   by norm_num [api_aviator_cashout, findBet, betKey, to_cents, rtrunc,
     Int.floor_ofNat, List.find?, active_ne_crashed],
   by norm_num, by norm_num,
   c10_payout_never_exceeds_exact ⟨7, 1, 1000⟩ ⟨0, 0, 5, 25/100, "active", none⟩
     [⟨0, 0, 7, 3/20, false, none⟩] 1 ⟨0, 0, 7, 3/20, false, none⟩
     (by norm_num [findBet, betKey, List.find?])
     (by norm_num [api_aviator_cashout, findBet, betKey, to_cents, rtrunc,
       Int.floor_ofNat, List.find?, active_ne_crashed])
     (by norm_num) (by norm_num)⟩

end Tapify
